import Mathlib

/-!
# Verification of the text_to_speech backend

A shallow embedding of the audio pipeline of `src/backend/main.py` and
`src/backend/utils.py`: parameter validation, audio-prompt ingestion
(dtype normalization, mono reduction, length bound), prompt conditioning,
speed adjustment by linear-interpolation resampling, 16-bit quantization,
temporary-file lifecycle and the old-file cleanup sweep.

Python/numpy floats are embedded as `ℚ` (exact arithmetic; every claim
settled here depends only on order comparisons, clamping, floors and exact
ratios, none of which straddle a rounding boundary at the inputs involved).
Machine integers stay `ℤ`/`ℕ`; the int16 cast is modelled with an explicit
wrap `% 2^16`.  numpy arrays coming from decoders are 1-D or 2-D.
The external generative model and the audio decoders are opaque: they enter
as parameters (an oracle function for the model, an outcome value for the
decoders).  The filesystem of temporary files is a list of file names; the
two persisted directories are lists of (name, mtime) records.
-/

namespace TTS

/-- A decoded numpy sample array: 1-D, or 2-D (a list of rows).
`soundfile.read` / `librosa.load` return at most two dimensions. -/
inductive NpArr (α : Type) where
  | d1 (xs : List α)
  | d2 (rows : List (List α))
deriving DecidableEq, Repr

/-- `True` exactly on 1-D arrays (one channel). -/
def NpArr.isOneD {α : Type} : NpArr α → Bool
  | .d1 _ => true
  | .d2 _ => false

/-- Map a function over every sample (numpy elementwise `astype`/`/`). -/
def NpArr.mapSamples {α β : Type} (f : α → β) : NpArr α → NpArr β
  | .d1 xs => .d1 (xs.map f)
  | .d2 rows => .d2 (rows.map (fun r => r.map f))

/-- An integer dtype of numpy: signed or unsigned, of bit width `w`. -/
inductive IntKind where
  | signed (w : ℕ)
  | unsigned (w : ℕ)
deriving DecidableEq, Repr

/-- `np.iinfo(dtype).max`: the largest representable value of the width. -/
def intMaxVal : IntKind → ℤ
  | .signed w => 2 ^ (w - 1) - 1
  | .unsigned w => 2 ^ w - 1

/-- `np.iinfo(dtype).min`: the smallest representable value of the width. -/
def intMinVal : IntKind → ℤ
  | .signed w => -(2 ^ (w - 1))
  | .unsigned _ => 0

/-- A decoded waveform together with its dtype: integer-encoded with a
known width, or already floating point.  (The source's third branch, a
best-effort cast of any other dtype, has no representative in the decoded
domain modelled here.) -/
inductive RawAudio where
  | ints (k : IntKind) (a : NpArr ℤ)
  | floats (a : NpArr ℚ)

/-- `utils.normalize_audio_dtype` (also inlined at `main.py` lines 94-99):
integer samples are divided by `np.iinfo(dtype).max`; floating-point
samples pass through unchanged. -/
def normalize_audio_dtype : RawAudio → NpArr ℚ
  | .ints k a => a.mapSamples (fun n : ℤ => (n : ℚ) / (intMaxVal k : ℚ))
  | .floats a => a

/-- `shape[1]` of a 2-D array given by its rows. -/
def shape1 (rows : List (List ℚ)) : ℕ := (rows.headD []).length

/-- `np.mean(a, axis=0)` on a 2-D array: column means. -/
def meanAxis0 (rows : List (List ℚ)) : List ℚ :=
  (List.range (shape1 rows)).map fun j =>
    (rows.map fun r => r.getD j 0).sum / (rows.length : ℚ)

/-- `np.mean(a, axis=1)` on a 2-D array: row means. -/
def meanAxis1 (rows : List (List ℚ)) : List ℚ :=
  rows.map fun r => r.sum / (r.length : ℚ)

/-- `utils.convert_to_mono` (also inlined at `main.py` lines 101-110):
a 1-D array is returned unchanged; a 2-D array is averaged over axis 0
when `shape[0] == 2`, over axis 1 when `shape[1] == 2`, and otherwise the
fallback takes row 0 when `shape[0] < shape[1]`, else column 0. -/
def convert_to_mono : NpArr ℚ → NpArr ℚ
  | .d1 xs => .d1 xs
  | .d2 rows =>
    if rows.length = 2 then .d1 (meanAxis0 rows)
    else if shape1 rows = 2 then .d1 (meanAxis1 rows)
    else if rows.length < shape1 rows then .d1 (rows.headD [])
    else .d1 (rows.map fun r => r.headD 0)

/-- Samples of a mono array.  `convert_to_mono` always returns a 1-D
array (proved below), so the `d2` case is unreachable where this is used;
it is completed with row 0 to stay total. -/
def samplesOf : NpArr ℚ → List ℚ
  | .d1 xs => xs
  | .d2 rows => rows.headD []

/-- `np.max` on a (nonempty) 1-D array.  The source only evaluates it
behind a nonemptiness short-circuit; the seed is the head, so the value on
`[]` is the irrelevant `0`. -/
def npMax (xs : List ℚ) : ℚ := xs.foldl max (xs.headD 0)

/-- `utils.is_audio_empty_or_silent`: empty, or `audio_data.max() == 0`.
Note the source compares the plain maximum, not the maximum absolute
value, with zero. -/
def is_audio_empty_or_silent (xs : List ℚ) : Bool :=
  xs.isEmpty || npMax xs == 0

/-! ## Temporary files and the ingest stage (`process_audio_file`)

The filesystem of temporary files is the list of names of files currently
present.  `tempfile.NamedTemporaryFile(delete=False)` creates a file whose
(fresh) name the caller supplies here as `tempName`; `Path.unlink` removes
it.  Decoding is external, so its outcome is an input. -/

/-- Outcome of the decode step of `main.process_audio_file` (lines 78-90):
some decoder succeeded with a raw array and sample rate, or `librosa` was
missing (`ImportError`), or both decoders failed. -/
inductive Decoded where
  | ok (raw : RawAudio) (sr : ℤ)
  | formatUnsupported
  | invalid

/-- `str(HTTPException(status, detail))` as Starlette renders it. -/
def httpExnStr (e : ℕ × String) : String := toString e.1 ++ ": " ++ e.2

/-- The outer `except Exception` of `main.process_audio_file` (lines
124-128).  Every `HTTPException` raised inside the `try` body is caught
here again (it is an `Exception`): if its string form contains
"Format not recognized" the format message is raised, otherwise the
exception text is wrapped in a generic 400. -/
def wrapProcessError (e : ℕ × String) : ℕ × String :=
  if ("Format not recognized".toList) <:+: (httpExnStr e).toList
  then (400, "Audio format not supported. Please use WAV, MP3, or FLAC format.")
  else (400, "Failed to process audio: " ++ httpExnStr e)

/-- `main.process_audio_file` (lines 66-134): write the upload to a fresh
temporary file, decode it (outcome given), normalize dtype, reduce to
mono, reject an empty result with HTTP 400, truncate to 30 s at 44.1 kHz,
and in `finally` unlink the temporary file.  Returns the request outcome
and the resulting set of temporary files. -/
def process_audio_file (decoded : Decoded) (tempName : String)
    (fs : List String) : Except (ℕ × String) (List ℚ × ℤ) × List String :=
  let fsOpen := tempName :: fs
  let inner : Except (ℕ × String) (List ℚ × ℤ) :=
    match decoded with
    | .formatUnsupported =>
        .error (400, "Audio format not supported. Please use WAV, MP3, or FLAC format.")
    | .invalid =>
        .error (400, "Failed to process audio. Please ensure the file is a valid audio file.")
    | .ok raw sr =>
        let a := normalize_audio_dtype raw
        let xs := samplesOf (convert_to_mono a)
        if xs.length = 0 then
          .error (400, "Audio file appears to be empty")
        else
          let maxSamples := 30 * 44100
          let xs := if maxSamples < xs.length then xs.take maxSamples else xs
          .ok (xs, sr)
  let result : Except (ℕ × String) (List ℚ × ℤ) :=
    match inner with
    | .ok v => .ok v
    | .error e => .error (wrapProcessError e)
  (result, fsOpen.erase tempName)

/-! ## The prompt conditioner (`utils.process_audio_prompt`) -/

/-- The embedded audio prompt of the request body:
`{sample_rate: int, audio_data: [float]}`. -/
structure AudioPrompt where
  audio_data : List ℚ
  sample_rate : ℤ

/-- `utils.save_audio_to_temp_file`: create a fresh temporary file
(`delete=False`), then `sf.write` the samples into it — `writeOk` is the
outcome of that external write.  On failure an HTTP 400 is raised.  In
both cases the temporary file stays present: the function contains no
deletion. -/
def save_audio_to_temp_file (audio_data : List ℚ) (sample_rate : ℤ)
    (tempName : String) (writeOk : Bool) (fs : List String) :
    Except (ℕ × String) String × List String :=
  let fsOpen := tempName :: fs
  if writeOk then (.ok tempName, fsOpen)
  else (.error (400, "Failed to save audio prompt"), fsOpen)

/-- `utils.process_audio_prompt`: build a float array from the embedded
prompt, return `none` when `is_audio_empty_or_silent`, otherwise
normalize dtype (a float array passes through), reduce to mono (a 1-D
array passes through) and serialize to a temporary file whose path is
returned. -/
def process_audio_prompt (p : AudioPrompt) (tempName : String)
    (writeOk : Bool) (fs : List String) :
    Except (ℕ × String) (Option String) × List String :=
  let audio_data := p.audio_data
  if is_audio_empty_or_silent audio_data then (.ok none, fs)
  else
    let a := normalize_audio_dtype (.floats (.d1 audio_data))
    let a := convert_to_mono a
    match save_audio_to_temp_file (samplesOf a) p.sample_rate tempName
        writeOk fs with
    | (.ok path, fs2) => (.ok (some path), fs2)
    | (.error e, fs2) => (.error e, fs2)

/-! ## Request validation (`main.generate_speech`, lines 151-166) -/

/-- `not text or text.isspace()`: empty, or entirely whitespace. -/
def textInvalid (text : String) : Bool :=
  text.isEmpty || text.toList.all Char.isWhitespace

/-- The six generation parameters of `POST /api/generate` with the
defaults of the route signature (lines 140-145). -/
structure GenParams where
  max_new_tokens : ℤ := 1024
  cfg_scale : ℚ := 3
  temperature : ℚ := 13/10
  top_p : ℚ := 19/20
  cfg_filter_top_k : ℤ := 35
  speed_factor : ℚ := 94/100
deriving DecidableEq, Repr

/-- The validation prologue of `generate_speech` (lines 151-166), run
before the `try`/`finally` body: the first failing check raises its
HTTP 400 detail; `none` means the request is accepted. -/
def validateRequest (text : String) (p : GenParams) : Option (ℕ × String) :=
  if textInvalid text then
    some (400, "Text input cannot be empty")
  else if ¬(860 ≤ p.max_new_tokens ∧ p.max_new_tokens ≤ 3072) then
    some (400, "max_new_tokens must be between 860 and 3072")
  else if ¬(1 ≤ p.temperature ∧ p.temperature ≤ 3/2) then
    some (400, "temperature must be between 1.0 and 1.5")
  else if ¬(4/5 ≤ p.top_p ∧ p.top_p ≤ 1) then
    some (400, "top_p must be between 0.8 and 1.0")
  else if ¬(1 ≤ p.cfg_scale ∧ p.cfg_scale ≤ 5) then
    some (400, "cfg_scale must be between 1.0 and 5.0")
  else if ¬(15 ≤ p.cfg_filter_top_k ∧ p.cfg_filter_top_k ≤ 50) then
    some (400, "cfg_filter_top_k must be between 15 and 50")
  else if ¬(4/5 ≤ p.speed_factor ∧ p.speed_factor ≤ 1) then
    some (400, "speed_factor must be between 0.8 and 1.0")
  else none

/-! ## Prompt reshaping for the model (`main.generate_speech`, 178-191) -/

/-- Truncate to 16000 samples or zero-pad up to 16000, then gather 81
evenly spaced samples (`torch.linspace(0, 15999, 81).long()`; truncation
of exact rationals stands in for truncation of the library's floats) and
reshape them to 9×9. -/
def prepare_prompt (xs : List ℚ) : List (List ℚ) :=
  let ap : List ℚ :=
    if 16000 < xs.length then xs.take 16000
    else xs ++ List.replicate (16000 - xs.length) 0
  let picked := (List.range 81).map fun i : ℕ =>
    ap.getD (⌊((i : ℚ) * 15999) / 80⌋).toNat 0
  (List.range 9).map fun r => (picked.drop (9 * r)).take 9

/-! ## Speed adjustment (`main.generate_speech`, lines 214-223) -/

/-- `max(0.1, min(speed_factor, 5.0))` — the processor's own safety
clamp. -/
def clampSpeed (sf : ℚ) : ℚ := max (1/10) (min sf 5)

/-- `int(original_len / speed_factor)` after the clamp.  The quotient is
nonnegative, so Python's toward-zero `int()` is the floor. -/
def targetLen (originalLen : ℕ) (sf : ℚ) : ℕ :=
  (⌊(originalLen : ℚ) / clampSpeed sf⌋).toNat

/-- `np.interp` at one query point `x` over `xp = arange(len(audio))`:
linear interpolation between the neighbouring integer indices. -/
def interpAt (audio : List ℚ) (x : ℚ) : ℚ :=
  let i := (⌊x⌋).toNat
  let a := audio.getD i 0
  let b := audio.getD (i + 1) a
  a + (x - (i : ℚ)) * (b - a)

/-- `np.interp(np.linspace(0, L-1, target), np.arange(L), audio)`. -/
def resampleLinear (audio : List ℚ) (target : ℕ) : List ℚ :=
  (List.range target).map fun i : ℕ =>
    interpAt audio
      (if target ≤ 1 then 0
       else (i : ℚ) * ((audio.length : ℚ) - 1) / ((target : ℚ) - 1))

/-- Lines 214-223: clamp the speed factor, compute the target length, and
resample exactly when the target is positive and differs from the
original length. -/
def applySpeed (audio : List ℚ) (speed_factor : ℚ) : List ℚ :=
  let originalLen := audio.length
  let target := targetLen originalLen speed_factor
  if target ≠ originalLen ∧ 0 < target then resampleLinear audio target
  else audio

/-! ## Quantization (`main.generate_speech`, lines 226-227) -/

/-- `np.clip(x, -1.0, 1.0)`. -/
def clip1 (x : ℚ) : ℚ := max (-1) (min x 1)

/-- Truncation toward zero, as `astype` truncates a float to an integer. -/
def ratTrunc (q : ℚ) : ℤ := if 0 ≤ q then ⌊q⌋ else ⌈q⌉

/-- Wrap an integer into the two's-complement int16 range. -/
def toInt16 (n : ℤ) : ℤ := (n + 32768) % 65536 - 32768

/-- One sample of `(np.clip(a, -1.0, 1.0) * 32767).astype(np.int16)`. -/
def quantizeSample (x : ℚ) : ℤ := toInt16 (ratTrunc (clip1 x * 32767))

/-! ## The generate route (`main.generate_speech`) -/

/-- A file of one of the two persisted directories: its name and
modification time (epoch seconds). -/
structure FileInfo where
  name : String
  mtime : ℚ
deriving DecidableEq, Repr

/-- The two persisted directories: `AUDIO_DIR` (generated output) and
`UPLOADS_DIR`. -/
structure DirState where
  audioFiles : List FileInfo
  uploadFiles : List FileInfo
deriving DecidableEq, Repr

/-- The `AUDIO_DIR.glob("*.wav")` membership test: the file name ends in
".wav", modelled over the name's character list. -/
def matchesWavGlob (name : String) : Bool :=
  (".wav".toList).isSuffixOf name.toList

/-- The deletion condition of the `finally` sweep in `AUDIO_DIR` (lines
248-250): the file matches the `*.wav` glob, differs from the current
request's output path, and its mtime is older than `now - 3600`. -/
def staleWav (now : ℚ) (outputName : String) (f : FileInfo) : Bool :=
  matchesWavGlob f.name && f.name != outputName &&
    decide (f.mtime < now - 3600)

/-- The deletion condition of the sweep in `UPLOADS_DIR` (lines 251-253):
mtime older than `now - 3600`. -/
def staleUpload (now : ℚ) (f : FileInfo) : Bool :=
  decide (f.mtime < now - 3600)

/-- The `finally` sweep (lines 245-255): unlink the stale files of both
directories. -/
def cleanupOldFiles (now : ℚ) (outputName : String) (d : DirState) : DirState :=
  { audioFiles := d.audioFiles.filter fun f => !(staleWav now outputName f),
    uploadFiles := d.uploadFiles.filter fun f => !(staleUpload now f) }

/-- Lines 172-191: when an upload is present, ingest it via
`process_audio_file` (its `HTTPException` propagates) and reshape the
samples to the 9×9 conditioning block handed to the model; no upload
means no conditioning. -/
def prompt_stage (audioUpload : Option Decoded) (tempName : String)
    (fs : List String) :
    Except (ℕ × String) (Option (List (List ℚ))) × List String :=
  match audioUpload with
  | none => (.ok none, fs)
  | some dec =>
    match process_audio_file dec tempName fs with
    | (.ok (xs, _), fs2) => (.ok (some (prepare_prompt xs)), fs2)
    | (.error e, fs2) => (.error e, fs2)

/-- `main.generate_speech` (lines 136-255).  Inputs beyond the request:
`modelGen`, the opaque model as a function of the conditioning block it
is invoked with (`none` = the model returned `None`); `audioUpload`, the
decode outcome of the optional upload; `tempName`, the fresh temporary
file name; `fs`, the temporary files present; `outputName`, the
timestamp-derived output file name; `now`, the current time; `d`, the two
persisted directories.  Validation failures raise before the
`try`/`finally`, so they skip the cleanup sweep; every path inside the
body runs it.  The success path writes the output file into `AUDIO_DIR`
first.  Returns (route outcome, temporary files, directories). -/
def generate_speech (modelGen : Option (List (List ℚ)) → Option (List ℚ))
    (audioUpload : Option Decoded) (text : String) (p : GenParams)
    (tempName : String) (fs : List String) (outputName : String) (now : ℚ)
    (d : DirState) :
    Except (ℕ × String) (List ℤ) × List String × DirState :=
  match validateRequest text p with
  | some e => (.error e, fs, d)
  | none =>
    match prompt_stage audioUpload tempName fs with
    | (.error e, fs2) => (.error e, fs2, cleanupOldFiles now outputName d)
    | (.ok promptArg, fs2) =>
      match modelGen promptArg with
      | none =>
          (.error (500, "Model generated no output"), fs2,
            cleanupOldFiles now outputName d)
      | some out =>
          let final := (applySpeed out p.speed_factor).map quantizeSample
          let d2 : DirState :=
            { d with audioFiles := ⟨outputName, now⟩ :: d.audioFiles }
          (.ok final, fs2, cleanupOldFiles now outputName d2)

/-! ## Helper lemmas -/

theorem ratTrunc_intCast (z : ℤ) : ratTrunc (z : ℚ) = z := by
  unfold ratTrunc
  split
  · exact Int.floor_intCast z
  · exact Int.ceil_intCast z

theorem length_resampleLinear (audio : List ℚ) (target : ℕ) :
    (resampleLinear audio target).length = target := by
  unfold resampleLinear
  rw [List.length_map, List.length_range]

theorem clampSpeed_one : clampSpeed 1 = 1 := by
  norm_num [clampSpeed, max_def, min_def]

theorem targetLen_one (L : ℕ) : targetLen L 1 = L := by
  simp [targetLen, clampSpeed_one]

theorem clampSpeed_id (sf : ℚ) (h1 : 4/5 ≤ sf) (h2 : sf ≤ 1) :
    clampSpeed sf = sf := by
  rw [clampSpeed, min_eq_left (by linarith), max_eq_right (by linarith)]

theorem quantizeSample_zero : quantizeSample 0 = 0 := by
  have h1 : clip1 0 * 32767 = ((0 : ℤ) : ℚ) := by
    norm_num [clip1, max_def, min_def]
  rw [quantizeSample, h1, ratTrunc_intCast]
  norm_num [toInt16]

theorem applySpeed_one (audio : List ℚ) : applySpeed audio 1 = audio := by
  simp [applySpeed, targetLen_one]

/-! ## The claims -/

/-- C2: the playback post-processor first clamps `speed_factor` into
[0.1, 5.0], then computes `target_length = floor(original_length /
speed_factor)`; it resamples exactly when the target is positive and
differs from the original length, and the resampled output has the target
length.  For `speed_factor = 1.0` the output is the input itself (so the
lengths agree exactly); on a 1000-sample input the target is 2000 for
`speed_factor = 0.5` and 500 for `speed_factor = 2.0`. -/
theorem speed_postprocessor_correct :
    (∀ sf : ℚ, clampSpeed sf = max (1/10) (min sf 5))
    ∧ (∀ (L : ℕ) (sf : ℚ),
        targetLen L sf = (⌊(L : ℚ) / clampSpeed sf⌋).toNat)
    ∧ (∀ (audio : List ℚ) (sf : ℚ),
        targetLen audio.length sf = audio.length ∨
          targetLen audio.length sf = 0 →
        applySpeed audio sf = audio)
    ∧ (∀ (audio : List ℚ) (sf : ℚ),
        targetLen audio.length sf ≠ audio.length →
        0 < targetLen audio.length sf →
        applySpeed audio sf = resampleLinear audio (targetLen audio.length sf)
          ∧ (applySpeed audio sf).length = targetLen audio.length sf)
    ∧ (∀ audio : List ℚ, applySpeed audio 1 = audio)
    ∧ targetLen 1000 (1/2) = 2000
    ∧ targetLen 1000 2 = 500 := by
  refine ⟨fun _ => rfl, fun _ _ => rfl, ?_, ?_, applySpeed_one, ?_, ?_⟩
  · intro audio sf h
    rcases h with h | h <;> simp [applySpeed, h]
  · intro audio sf h1 h2
    rw [applySpeed, if_pos ⟨h1, h2⟩]
    exact ⟨rfl, length_resampleLinear audio _⟩
  · norm_num [targetLen, clampSpeed, max_def, min_def]
    rfl
  · norm_num [targetLen, clampSpeed, max_def, min_def]
    rfl

/-- Witness for C2: on the 2-sample input with `speed_factor = 0.5` the
target length is 4 ≠ 2, so the resampling path is taken and the output
has length 4. -/
theorem speed_postprocessor_correct_witness :
    applySpeed [0, 0] (1/2) = resampleLinear [0, 0] (targetLen 2 (1/2))
    ∧ (applySpeed [0, 0] (1/2)).length = targetLen 2 (1/2) := by
  have h4 : targetLen 2 (1/2) = 4 := by
    norm_num [targetLen, clampSpeed, max_def, min_def]
    rfl
  have h := speed_postprocessor_correct.2.2.2.1 [0, 0] (1/2)
    (by rw [List.length_cons, List.length_cons, List.length_nil, h4]; omega)
    (by rw [List.length_cons, List.length_cons, List.length_nil, h4]; omega)
  exact h

/-- C3: quantization clips each sample to [-1, 1], scales by 32767 and
casts to int16; an all-zero waveform quantizes to all-zero 16-bit
samples, 1.0 to 32767 and -1.0 to -32767. -/
theorem quantization_endpoints :
    (∀ n : ℕ,
      (List.replicate n (0 : ℚ)).map quantizeSample = List.replicate n 0)
    ∧ quantizeSample 1 = 32767
    ∧ quantizeSample (-1) = -32767 := by
  refine ⟨?_, ?_, ?_⟩
  · intro n
    rw [List.map_replicate, quantizeSample_zero]
  · have h1 : clip1 1 * 32767 = ((32767 : ℤ) : ℚ) := by
      norm_num [clip1, max_def, min_def]
    rw [quantizeSample, h1, ratTrunc_intCast]
    norm_num [toInt16]
  · have h1 : clip1 (-1) * 32767 = ((-32767 : ℤ) : ℚ) := by
      norm_num [clip1, max_def, min_def]
    rw [quantizeSample, h1, ratTrunc_intCast]
    norm_num [toInt16]

/-- C9: for a validated request (`speed_factor` in [0.8, 1.0]) the
post-processor's re-clamp into [0.1, 5.0] is the identity, the target
length `floor(original_length / speed_factor)` is at least the original
length, and the quantized rendered waveform is never shorter than the
model's raw output. -/
theorem validated_speed_never_shortens (audio : List ℚ) (sf : ℚ)
    (h1 : 4/5 ≤ sf) (h2 : sf ≤ 1) :
    clampSpeed sf = sf
    ∧ audio.length ≤ targetLen audio.length sf
    ∧ audio.length ≤ ((applySpeed audio sf).map quantizeSample).length := by
  have hc : clampSpeed sf = sf := clampSpeed_id sf h1 h2
  have hpos : (0 : ℚ) < sf := by linarith
  have hkey : ∀ L : ℕ, L ≤ targetLen L sf := by
    intro L
    have hdiv : (L : ℚ) ≤ (L : ℚ) / sf := by
      rw [le_div_iff₀ hpos]
      calc (L : ℚ) * sf ≤ (L : ℚ) * 1 :=
            mul_le_mul_of_nonneg_left h2 (Nat.cast_nonneg L)
        _ = (L : ℚ) := mul_one _
    have hfloor : (L : ℤ) ≤ ⌊(L : ℚ) / sf⌋ := by
      rw [Int.le_floor]
      push_cast
      exact hdiv
    have hnn : (0 : ℤ) ≤ ⌊(L : ℚ) / sf⌋ :=
      le_trans (Int.natCast_nonneg L) hfloor
    rw [targetLen, hc]
    exact (Int.le_toNat hnn).mpr hfloor
  refine ⟨hc, hkey audio.length, ?_⟩
  rw [List.length_map, applySpeed]
  split
  · rw [length_resampleLinear]
    exact hkey audio.length
  · exact le_refl _

/-- Witness for C9 at `speed_factor = 0.9` on a 3-sample waveform. -/
theorem validated_speed_never_shortens_witness :
    clampSpeed (9/10) = 9/10
    ∧ (3 : ℕ) ≤ targetLen 3 (9/10)
    ∧ (3 : ℕ) ≤ ((applySpeed [0, 0, 0] (9/10)).map quantizeSample).length := by
  have h := validated_speed_never_shortens [0, 0, 0] (9/10)
    (by norm_num) (by norm_num)
  simpa using h

theorem validateRequest_some_imp (text : String) (p : GenParams)
    (e : ℕ × String) (h : validateRequest text p = some e) : e.1 = 400 := by
  unfold validateRequest at h
  split_ifs at h <;>
    first
    | (have h2 := Option.some.inj h
       subst h2
       rfl)
    | simp at h

/-- C1: a request whose text is empty/whitespace or whose parameters lie
outside the enforced ranges is rejected with HTTP 400 by the validation
prologue, whose outcome completely determines acceptance; on rejection
`generate_speech` returns that error untouched, for every model oracle and
upload — no model invocation, no file write, no cleanup.  In particular
`temperature = 0.9` is rejected with the temperature message and
`temperature = 1.2` (other parameters at their defaults) is accepted. -/
theorem validation_rejects_before_model :
    (∀ (text : String) (p : GenParams),
      validateRequest text p = none ↔
        (textInvalid text = false
          ∧ 860 ≤ p.max_new_tokens ∧ p.max_new_tokens ≤ 3072
          ∧ 1 ≤ p.temperature ∧ p.temperature ≤ 3/2
          ∧ 4/5 ≤ p.top_p ∧ p.top_p ≤ 1
          ∧ 1 ≤ p.cfg_scale ∧ p.cfg_scale ≤ 5
          ∧ 15 ≤ p.cfg_filter_top_k ∧ p.cfg_filter_top_k ≤ 50
          ∧ 4/5 ≤ p.speed_factor ∧ p.speed_factor ≤ 1))
    ∧ (∀ (text : String) (p : GenParams) (e : ℕ × String),
        validateRequest text p = some e →
          e.1 = 400 ∧
          ∀ mg au tempName fs outputName now d,
            generate_speech mg au text p tempName fs outputName now d =
              (.error e, fs, d))
    ∧ validateRequest "Hello" { temperature := 9/10 } =
        some (400, "temperature must be between 1.0 and 1.5")
    ∧ validateRequest "Hello" { temperature := 12/10 } = none := by
  refine ⟨?_, ?_, ?_, ?_⟩
  · intro text p
    constructor
    · intro h
      unfold validateRequest at h
      split_ifs at h with h1 h2 h3 h4 h5 h6 h7 <;>
        first
        | exact ⟨by simpa using h1, h2.1, h2.2, h3.1, h3.2, h4.1, h4.2,
            h5.1, h5.2, h6.1, h6.2, h7.1, h7.2⟩
        | simp at h
    · rintro ⟨ht, ha1, ha2, hb1, hb2, hc1, hc2, hd1, hd2, he1, he2, hf1, hf2⟩
      simp [validateRequest, ht, ha1, ha2, hb1, hb2, hc1, hc2, hd1, hd2,
        he1, he2, hf1, hf2]
  · intro text p e h
    refine ⟨validateRequest_some_imp text p e h, ?_⟩
    intro mg au tempName fs outputName now d
    simp [generate_speech, h]
  · norm_num [validateRequest, show textInvalid "Hello" = false from by decide]
  · norm_num [validateRequest, show textInvalid "Hello" = false from by decide]

/-- Witness for C1: the empty text is rejected with HTTP 400 and
`generate_speech` returns exactly that error, leaving the temporary files
and directories untouched, under a model oracle that would otherwise
produce output. -/
theorem validation_rejects_before_model_witness :
    generate_speech (fun _ => some [0]) none "" {} "tmp" [] "out.wav" 0
        ⟨[], []⟩ =
      (.error (400, "Text input cannot be empty"), [], ⟨[], []⟩) := by
  have h : validateRequest "" {} = some (400, "Text input cannot be empty") := by
    norm_num [validateRequest, show textInvalid "" = true from by decide]
  exact (validation_rejects_before_model.2.1 "" {}
    (400, "Text input cannot be empty") h).2 (fun _ => some [0]) none "tmp" []
    "out.wav" 0 ⟨[], []⟩

/-- C6: channel reduction always yields a one-dimensional (single
channel) array; a 2×N input is reduced to the elementwise mean of its two
rows (length N), and an N×2 input with N ≠ 2 to the elementwise mean of
its two columns (length N). -/
theorem mono_reduction_correct :
    (∀ a : NpArr ℚ, (convert_to_mono a).isOneD = true)
    ∧ (∀ r0 r1 : List ℚ, r0.length = r1.length →
        convert_to_mono (.d2 [r0, r1]) =
          .d1 ((List.range r0.length).map fun j =>
            (r0.getD j 0 + r1.getD j 0) / 2)
        ∧ (samplesOf (convert_to_mono (.d2 [r0, r1]))).length = r0.length)
    ∧ (∀ rows : List (List ℚ), rows ≠ [] → rows.length ≠ 2 →
        (∀ r ∈ rows, r.length = 2) →
        convert_to_mono (.d2 rows) =
          .d1 (rows.map fun r => (r.getD 0 0 + r.getD 1 0) / 2)
        ∧ (samplesOf (convert_to_mono (.d2 rows))).length = rows.length) := by
  have h2xN : ∀ r0 r1 : List ℚ,
      convert_to_mono (.d2 [r0, r1]) =
        .d1 ((List.range r0.length).map fun j =>
          (r0.getD j 0 + r1.getD j 0) / 2) := by
    intro r0 r1
    have hl : ([r0, r1] : List (List ℚ)).length = 2 := rfl
    rw [convert_to_mono, if_pos hl]
    congr 1
    rw [meanAxis0]
    refine List.map_congr_left fun j _ => ?_
    simp [shape1]
  refine ⟨?_, ?_, ?_⟩
  · intro a
    rcases a with xs | rows
    · rfl
    · rw [convert_to_mono]
      split_ifs <;> rfl
  · intro r0 r1 _
    refine ⟨h2xN r0 r1, ?_⟩
    rw [h2xN r0 r1, samplesOf, List.length_map, List.length_range]
  · intro rows hne hlen hrows
    have hshape : shape1 rows = 2 := by
      rcases rows with _ | ⟨r, rest⟩
      · exact absurd rfl hne
      · exact hrows r (List.mem_cons_self r rest)
    have heq : convert_to_mono (.d2 rows) =
        .d1 (rows.map fun r => (r.getD 0 0 + r.getD 1 0) / 2) := by
      rw [convert_to_mono, if_neg hlen, if_pos hshape]
      congr 1
      rw [meanAxis1]
      refine List.map_congr_left fun r hr => ?_
      obtain ⟨a, b, rfl⟩ := List.length_eq_two.mp (hrows r hr)
      norm_num
    refine ⟨heq, ?_⟩
    rw [heq, samplesOf, List.length_map]

/-- Witness for C6 on the 2×2 array [[0, 2], [2, 4]] (rows as channels)
and the 3×2 array [[0, 2], [2, 4], [4, 6]] (columns as channels). -/
theorem mono_reduction_correct_witness :
    (convert_to_mono (.d2 [[0, 2], [2, 4]]) =
      .d1 ((List.range 2).map fun j =>
        (([0, 2] : List ℚ).getD j 0 + ([2, 4] : List ℚ).getD j 0) / 2))
    ∧ (convert_to_mono (.d2 [[0, 2], [2, 4], [4, 6]]) =
        .d1 ([[0, 2], [2, 4], [4, 6]].map fun r : List ℚ =>
          (r.getD 0 0 + r.getD 1 0) / 2)) := by
  constructor
  · exact (mono_reduction_correct.2.1 [0, 2] [2, 4] rfl).1
  · exact (mono_reduction_correct.2.2 [[0, 2], [2, 4], [4, 6]]
      (by simp) (by simp) (by intro r hr; fin_cases hr <;> rfl)).1

/-- C5 counterexample: the most negative int16 sample, -32768 — a valid
sample of its dtype — normalizes to -32768/32767, which is strictly below
-1, so the output is not contained in [-1.0, 1.0]. -/
theorem normalize_below_neg_one :
    normalize_audio_dtype (.ints (.signed 16) (.d1 [-32768])) =
      .d1 [(-32768 : ℚ) / 32767]
    ∧ intMinVal (.signed 16) ≤ -32768
    ∧ (-32768 : ℤ) ≤ intMaxVal (.signed 16)
    ∧ (-32768 : ℚ) / 32767 < -1 := by
  refine ⟨?_, ?_, ?_, ?_⟩
  · simp only [normalize_audio_dtype, NpArr.mapSamples, List.map_cons,
      List.map_nil]
    norm_num [intMaxVal]
  · norm_num [intMinVal]
  · norm_num [intMaxVal]
  · rw [div_lt_iff₀ (by norm_num : (0:ℚ) < 32767)]
    norm_num

/-- C5 amended: floating-point arrays pass through unchanged; an
integer-encoded array whose samples are within its dtype's range is
rescaled by dividing by the dtype's maximum, and every output sample lies
in the closed interval [min/max, 1] — which is [-2^(w-1)/(2^(w-1)-1), 1],
a hair wider than [-1, 1] on the left, for signed widths. -/
theorem normalize_dtype_bounds :
    (∀ a : NpArr ℚ, normalize_audio_dtype (.floats a) = a)
    ∧ ∀ (k : IntKind) (xs : List ℤ), 0 < intMaxVal k →
        (∀ n ∈ xs, intMinVal k ≤ n ∧ n ≤ intMaxVal k) →
        ∀ y ∈ samplesOf (normalize_audio_dtype (.ints k (.d1 xs))),
          (intMinVal k : ℚ) / (intMaxVal k : ℚ) ≤ y ∧ y ≤ 1 := by
  constructor
  · intro a
    rfl
  · intro k xs hmax hxs y hy
    simp only [normalize_audio_dtype, NpArr.mapSamples, samplesOf,
      List.mem_map] at hy
    obtain ⟨n, hn, rfl⟩ := hy
    have hmaxQ : (0 : ℚ) < (intMaxVal k : ℚ) := by exact_mod_cast hmax
    have hlo : (intMinVal k : ℚ) ≤ (n : ℚ) := by
      exact_mod_cast (hxs n hn).1
    have hhi : (n : ℚ) ≤ (intMaxVal k : ℚ) := by
      exact_mod_cast (hxs n hn).2
    constructor
    · gcongr
    · rw [div_le_one hmaxQ]
      exact hhi

/-- Witness for C5 at int16 with the samples [-32768, 0, 32767]. -/
theorem normalize_dtype_bounds_witness :
    (intMinVal (.signed 16) : ℚ) / (intMaxVal (.signed 16) : ℚ) ≤
        (-32768 : ℚ) / 32767
    ∧ ((-32768 : ℚ) / 32767) ≤ 1 := by
  have hmem : (-32768 : ℚ) / 32767 ∈
      samplesOf (normalize_audio_dtype (.ints (.signed 16) (.d1 [-32768]))) := by
    simp only [normalize_audio_dtype, NpArr.mapSamples, samplesOf,
      List.map_cons, List.map_nil]
    norm_num [intMaxVal]
  exact normalize_dtype_bounds.2 (.signed 16) [-32768]
    (by norm_num [intMaxVal])
    (by intro n hn; simp only [List.mem_singleton] at hn; subst hn;
        norm_num [intMinVal, intMaxVal])
    ((-32768 : ℚ) / 32767) hmem

/-- C4: evaluation of the prompt conditioner at `audio_data = [-1.0, 0.0]`.
That waveform is non-empty and not silent (it holds a sample of absolute
value 1), yet `is_audio_empty_or_silent` — which compares the plain
maximum, not the maximum absolute value, to zero — reports it silent, so
`process_audio_prompt` drops it and returns no conditioning. -/
theorem silence_check_eval :
    (process_audio_prompt ⟨[-1, 0], 16000⟩ "tmp0" true []).1 = .ok none
    ∧ is_audio_empty_or_silent [-1, 0] = true
    ∧ ([-1, 0] : List ℚ) ≠ []
    ∧ ¬(∀ x ∈ ([-1, 0] : List ℚ), x = 0) := by
  have hs : is_audio_empty_or_silent [-1, 0] = true := by
    norm_num [is_audio_empty_or_silent, npMax, max_def]
  refine ⟨?_, hs, by simp, ?_⟩
  · rw [process_audio_prompt]
    simp [hs]
  · intro hall
    have h1 := hall (-1) (List.mem_cons_self (-1) [0])
    norm_num at h1

/-- C7 counterexample: on a non-silent prompt the conditioner's
serialization step creates a temporary file and returns with that file
still present — on the success path (the path is handed back, the file
undeleted) and on the write-failure path (the 400 is raised with the file
orphaned).  No code in the repository ever deletes it. -/
theorem conditioner_temp_file_persists :
    process_audio_prompt ⟨[1/2], 16000⟩ "tmpc" true [] =
      (.ok (some "tmpc"), ["tmpc"])
    ∧ (process_audio_prompt ⟨[1/2], 16000⟩ "tmpc" false []).2 = ["tmpc"] := by
  constructor <;>
    · rw [process_audio_prompt]
      norm_num [is_audio_empty_or_silent, npMax, max_def,
        save_audio_to_temp_file]

/-- C7 amended: the temporary file of `process_audio_file` is removed on
every exit path (its `finally` unlinks it), but the temporary file
written by the prompt conditioner's serialization step stays present in
the filesystem when `process_audio_prompt` returns, on every exit path of
the serialization. -/
theorem temp_file_lifecycle :
    (∀ (decoded : Decoded) (tempName : String) (fs : List String),
        (process_audio_file decoded tempName fs).2 = fs)
    ∧ (∀ (p : AudioPrompt) (tempName : String) (w : Bool) (fs : List String),
        is_audio_empty_or_silent p.audio_data = false →
        tempName ∈ (process_audio_prompt p tempName w fs).2) := by
  constructor
  · intro decoded tempName fs
    show (tempName :: fs).erase tempName = fs
    exact List.erase_cons_head tempName fs
  · intro p tempName w fs h
    rw [process_audio_prompt]
    simp only [h, Bool.false_eq_true, if_false, save_audio_to_temp_file]
    cases w <;> simp

/-- Witness for C7 on a concrete non-silent prompt. -/
theorem temp_file_lifecycle_witness :
    "tmpw" ∈ (process_audio_prompt ⟨[1/2], 16000⟩ "tmpw" true []).2 := by
  exact temp_file_lifecycle.2 ⟨[1/2], 16000⟩ "tmpw" true []
    (by norm_num [is_audio_empty_or_silent, npMax, max_def])

/-- C8 counterexample: ingest of a decoded zero-length waveform does not
return it to the caller — it fails the request with HTTP 400 (the inner
"Audio file appears to be empty" exception, re-wrapped by the outer
handler). -/
theorem empty_waveform_rejected_eval :
    (process_audio_file (.ok (.floats (.d1 [])) 44100) "tmpe" []).1 =
      .error (400,
        "Failed to process audio: 400: Audio file appears to be empty") := by
  have hwrap : wrapProcessError (400, "Audio file appears to be empty") =
      (400, "Failed to process audio: 400: Audio file appears to be empty") := by
    decide
  rw [process_audio_file]
  simp [normalize_audio_dtype, convert_to_mono, samplesOf, hwrap]

/-- C8 amended: a zero-length decoded waveform is rejected with HTTP 400
("Audio file appears to be empty", wrapped by the outer handler), not
returned; an all-zero (silent) non-empty waveform is accepted, returned
to the caller unchanged, and passed on to the model as a real 9×9
conditioning block rather than treated as absence of a prompt. -/
theorem ingest_empty_rejected_silent_passed :
    (∀ (sr : ℤ) (tempName : String) (fs : List String),
        (process_audio_file (.ok (.floats (.d1 [])) sr) tempName fs).1 =
          .error (400,
            "Failed to process audio: 400: Audio file appears to be empty"))
    ∧ (∀ (n : ℕ) (sr : ℤ) (tempName : String) (fs : List String),
        0 < n → n ≤ 30 * 44100 →
        (process_audio_file (.ok (.floats (.d1 (List.replicate n 0))) sr)
            tempName fs).1 = .ok (List.replicate n (0 : ℚ), sr))
    ∧ (∀ (n : ℕ) (sr : ℤ) (tempName : String) (fs : List String),
        0 < n → n ≤ 30 * 44100 →
        (prompt_stage (some (.ok (.floats (.d1 (List.replicate n 0))) sr))
            tempName fs).1 =
          .ok (some (prepare_prompt (List.replicate n 0)))) := by
  have hok : ∀ (n : ℕ) (sr : ℤ) (tempName : String) (fs : List String),
      0 < n → n ≤ 30 * 44100 →
      process_audio_file (.ok (.floats (.d1 (List.replicate n 0))) sr)
          tempName fs = (.ok (List.replicate n (0 : ℚ), sr), fs) := by
    intro n sr tempName fs h1 h2
    rw [process_audio_file]
    simp only [normalize_audio_dtype, convert_to_mono, samplesOf,
      List.length_replicate]
    rw [if_neg (by omega), if_neg (by omega), List.erase_cons_head]
  refine ⟨?_, ?_, ?_⟩
  · intro sr tempName fs
    have hwrap : wrapProcessError (400, "Audio file appears to be empty") =
        (400,
          "Failed to process audio: 400: Audio file appears to be empty") := by
      decide
    rw [process_audio_file]
    simp [normalize_audio_dtype, convert_to_mono, samplesOf, hwrap]
  · intro n sr tempName fs h1 h2
    rw [hok n sr tempName fs h1 h2]
  · intro n sr tempName fs h1 h2
    rw [prompt_stage, hok n sr tempName fs h1 h2]

/-- Witness for C8: the 3-sample silent waveform is accepted and passed
to the model as a real conditioning block. -/
theorem ingest_empty_rejected_silent_passed_witness :
    (process_audio_file (.ok (.floats (.d1 (List.replicate 3 0))) 44100)
        "tmps" []).1 = .ok (List.replicate 3 (0 : ℚ), 44100)
    ∧ (prompt_stage (some (.ok (.floats (.d1 (List.replicate 3 0))) 44100))
        "tmps" []).1 = .ok (some (prepare_prompt (List.replicate 3 0))) := by
  exact ⟨ingest_empty_rejected_silent_passed.2.1 3 44100 "tmps" []
      (by norm_num) (by norm_num),
    ingest_empty_rejected_silent_passed.2.2 3 44100 "tmps" []
      (by norm_num) (by norm_num)⟩

theorem staleWav_iff (now : ℚ) (oN : String) (f : FileInfo) :
    staleWav now oN f = true ↔
      matchesWavGlob f.name = true ∧ f.name ≠ oN ∧ f.mtime < now - 3600 := by
  simp [staleWav, and_assoc]

theorem staleUpload_iff (now : ℚ) (f : FileInfo) :
    staleUpload now f = true ↔ f.mtime < now - 3600 := by
  simp [staleUpload]

theorem cleanup_props (now : ℚ) (oN : String) (base d : DirState)
    (hA : ∀ f ∈ d.audioFiles, f ∈ base.audioFiles)
    (hU : ∀ f ∈ d.uploadFiles, f ∈ base.uploadFiles) :
    (∀ f ∈ d.audioFiles, now - 3600 ≤ f.mtime →
        f ∈ (cleanupOldFiles now oN base).audioFiles)
    ∧ (∀ f ∈ d.uploadFiles, now - 3600 ≤ f.mtime →
        f ∈ (cleanupOldFiles now oN base).uploadFiles)
    ∧ (∀ f ∈ d.audioFiles, f ∉ (cleanupOldFiles now oN base).audioFiles →
        f.mtime < now - 3600 ∧ f.name ≠ oN ∧ matchesWavGlob f.name = true)
    ∧ (∀ f ∈ d.uploadFiles, f ∉ (cleanupOldFiles now oN base).uploadFiles →
        f.mtime < now - 3600)
    ∧ (∀ f ∈ d.audioFiles, f.name = oN →
        f ∈ (cleanupOldFiles now oN base).audioFiles) := by
  refine ⟨?_, ?_, ?_, ?_, ?_⟩
  · intro f hf hfresh
    refine List.mem_filter.mpr ⟨hA f hf, ?_⟩
    rw [Bool.not_eq_true', Bool.eq_false_iff, Ne, staleWav_iff]
    exact fun hbad => absurd hbad.2.2 (not_lt.mpr hfresh)
  · intro f hf hfresh
    refine List.mem_filter.mpr ⟨hU f hf, ?_⟩
    rw [Bool.not_eq_true', Bool.eq_false_iff, Ne, staleUpload_iff]
    exact not_lt.mpr hfresh
  · intro f hf hout
    have hstale : staleWav now oN f = true := by
      by_contra hneg
      exact hout (List.mem_filter.mpr ⟨hA f hf,
        by rw [Bool.not_eq_true', Bool.eq_false_iff]; exact hneg⟩)
    have hc := (staleWav_iff now oN f).mp hstale
    exact ⟨hc.2.2, hc.2.1, hc.1⟩
  · intro f hf hout
    have hstale : staleUpload now f = true := by
      by_contra hneg
      exact hout (List.mem_filter.mpr ⟨hU f hf,
        by rw [Bool.not_eq_true', Bool.eq_false_iff]; exact hneg⟩)
    exact (staleUpload_iff now f).mp hstale
  · intro f hf hname
    refine List.mem_filter.mpr ⟨hA f hf, ?_⟩
    rw [Bool.not_eq_true', Bool.eq_false_iff, Ne, staleWav_iff]
    exact fun hbad => absurd hname hbad.2.1

/-- C10: on every exit path of the generate route, the files of the two
persisted directories that existed before the request are only ever
deleted when they are more than 3600 seconds old — in the output
directory additionally only `*.wav` files distinct from the current
request's output file — and every pre-existing file younger than one
hour, and every file carrying the current output name, survives. -/
theorem cleanup_sweep_properties
    (mg : Option (List (List ℚ)) → Option (List ℚ)) (au : Option Decoded)
    (text : String) (p : GenParams) (tempName : String) (fs : List String)
    (outputName : String) (now : ℚ) (d d2 : DirState)
    (h : (generate_speech mg au text p tempName fs outputName now d).2.2 = d2) :
    (∀ f ∈ d.audioFiles, now - 3600 ≤ f.mtime → f ∈ d2.audioFiles)
    ∧ (∀ f ∈ d.uploadFiles, now - 3600 ≤ f.mtime → f ∈ d2.uploadFiles)
    ∧ (∀ f ∈ d.audioFiles, f ∉ d2.audioFiles →
        f.mtime < now - 3600 ∧ f.name ≠ outputName
          ∧ matchesWavGlob f.name = true)
    ∧ (∀ f ∈ d.uploadFiles, f ∉ d2.uploadFiles → f.mtime < now - 3600)
    ∧ (∀ f ∈ d.audioFiles, f.name = outputName → f ∈ d2.audioFiles) := by
  have hid : d2 = d →
      (∀ f ∈ d.audioFiles, now - 3600 ≤ f.mtime → f ∈ d2.audioFiles)
      ∧ (∀ f ∈ d.uploadFiles, now - 3600 ≤ f.mtime → f ∈ d2.uploadFiles)
      ∧ (∀ f ∈ d.audioFiles, f ∉ d2.audioFiles →
          f.mtime < now - 3600 ∧ f.name ≠ outputName
            ∧ matchesWavGlob f.name = true)
      ∧ (∀ f ∈ d.uploadFiles, f ∉ d2.uploadFiles → f.mtime < now - 3600)
      ∧ (∀ f ∈ d.audioFiles, f.name = outputName → f ∈ d2.audioFiles) := by
    rintro rfl
    exact ⟨fun f hf _ => hf, fun f hf _ => hf,
      fun f hf hout => absurd hf hout,
      fun f hf hout => absurd hf hout, fun f hf _ => hf⟩
  have hswept : ∀ base : DirState,
      (∀ f ∈ d.audioFiles, f ∈ base.audioFiles) →
      (∀ f ∈ d.uploadFiles, f ∈ base.uploadFiles) →
      d2 = cleanupOldFiles now outputName base →
      (∀ f ∈ d.audioFiles, now - 3600 ≤ f.mtime → f ∈ d2.audioFiles)
      ∧ (∀ f ∈ d.uploadFiles, now - 3600 ≤ f.mtime → f ∈ d2.uploadFiles)
      ∧ (∀ f ∈ d.audioFiles, f ∉ d2.audioFiles →
          f.mtime < now - 3600 ∧ f.name ≠ outputName
            ∧ matchesWavGlob f.name = true)
      ∧ (∀ f ∈ d.uploadFiles, f ∉ d2.uploadFiles → f.mtime < now - 3600)
      ∧ (∀ f ∈ d.audioFiles, f.name = outputName → f ∈ d2.audioFiles) := by
    rintro base hA hU rfl
    exact cleanup_props now outputName base d hA hU
  rcases hval : validateRequest text p with _ | e
  · rcases hps : prompt_stage au tempName fs with ⟨pr, fs2⟩
    rcases pr with e2 | promptArg
    · have hg : (generate_speech mg au text p tempName fs outputName now
          d).2.2 = cleanupOldFiles now outputName d := by
        simp [generate_speech, hval, hps]
      exact hswept d (fun f hf => hf) (fun f hf => hf) (h.symm.trans hg)
    · rcases hmg : mg promptArg with _ | out
      · have hg : (generate_speech mg au text p tempName fs outputName now
            d).2.2 = cleanupOldFiles now outputName d := by
          simp [generate_speech, hval, hps, hmg]
        exact hswept d (fun f hf => hf) (fun f hf => hf) (h.symm.trans hg)
      · have hg : (generate_speech mg au text p tempName fs outputName now
            d).2.2 = cleanupOldFiles now outputName
              ⟨⟨outputName, now⟩ :: d.audioFiles, d.uploadFiles⟩ := by
          simp [generate_speech, hval, hps, hmg]
        exact hswept ⟨⟨outputName, now⟩ :: d.audioFiles, d.uploadFiles⟩
          (fun f hf => List.mem_cons_of_mem _ hf) (fun f hf => hf)
          (h.symm.trans hg)
  · have hg : (generate_speech mg au text p tempName fs outputName now
        d).2.2 = d := by
      simp [generate_speech, hval]
    exact hid (h.symm.trans hg)

/-- Witness for C10: model failure path (HTTP 500) at `now = 7200` over a
directory state holding one stale and one fresh output file and one stale
upload: the fresh file survives, and the deleted stale file is indeed an
old `.wav` distinct from the current output. -/
theorem cleanup_sweep_properties_witness :
    ((⟨"new.wav", 7000⟩ : FileInfo) ∈
        ([⟨"new.wav", 7000⟩] : List FileInfo))
    ∧ (((⟨"old.wav", 0⟩ : FileInfo).mtime < 7200 - 3600)
        ∧ "old.wav" ≠ "out.wav"
        ∧ matchesWavGlob "old.wav" = true) := by
  have hc1 : staleWav 7200 "out.wav" ⟨"old.wav", 0⟩ = true := by
    rw [staleWav, decide_eq_true
      (show (⟨"old.wav", 0⟩ : FileInfo).mtime < 7200 - 3600 from by
        norm_num)]
    decide
  have hc2 : staleWav 7200 "out.wav" ⟨"new.wav", 7000⟩ = false := by
    rw [staleWav, decide_eq_false
      (show ¬((⟨"new.wav", 7000⟩ : FileInfo).mtime < 7200 - 3600) from by
        norm_num)]
    decide
  have hcu : staleUpload 7200 ⟨"up.bin", 0⟩ = true := by
    rw [staleUpload]
    exact decide_eq_true (by norm_num)
  have hclean : cleanupOldFiles 7200 "out.wav"
      ⟨[⟨"old.wav", 0⟩, ⟨"new.wav", 7000⟩], [⟨"up.bin", 0⟩]⟩ =
      ⟨[⟨"new.wav", 7000⟩], []⟩ := by
    rw [cleanupOldFiles]
    simp [List.filter_cons, hc1, hc2, hcu]
  have h : (generate_speech (fun _ => none) none "Hello" {} "tmp" []
      "out.wav" 7200
      ⟨[⟨"old.wav", 0⟩, ⟨"new.wav", 7000⟩], [⟨"up.bin", 0⟩]⟩).2.2 =
      ⟨[⟨"new.wav", 7000⟩], []⟩ := by
    have hv : validateRequest "Hello" {} = none := by
      norm_num [validateRequest, show textInvalid "Hello" = false from by
        decide]
    simp only [generate_speech, hv, prompt_stage]
    exact hclean
  have hprops := cleanup_sweep_properties (fun _ => none) none "Hello" {}
    "tmp" [] "out.wav" 7200
    ⟨[⟨"old.wav", 0⟩, ⟨"new.wav", 7000⟩], [⟨"up.bin", 0⟩]⟩
    ⟨[⟨"new.wav", 7000⟩], []⟩ h
  refine ⟨?_, ?_⟩
  · exact hprops.1 ⟨"new.wav", 7000⟩ (by simp) (by norm_num)
  · have hdel := hprops.2.2.1 ⟨"old.wav", 0⟩ (by simp) ?_
    · exact ⟨hdel.1, hdel.2.1, hdel.2.2⟩
    · intro hmem
      simp only [List.mem_singleton, FileInfo.mk.injEq] at hmem
      exact absurd hmem.1 (by decide)

end TTS
